import Mathlib

/-!
# Verification of the Polar Bear chatbot's classification and extraction engine

Shallow embedding of the topic-classification and knowledge-extraction code of
the repository (`js/ai-service.js` and `js/blueprint-generator.js`).

JS strings are modelled as `List Char` (`Str`).  The repository's keyword
tables, typo-correction table and inputs are lowercase Latin text, so
lowercasing is modelled on the ASCII range.  The floating-point similarity
test `1 - distance/maxLength >= 0.6` of `fuzzyMatch` is modelled by the exact
rational comparison `5 * distance <= 2 * maxLength`; at every instance proved
below the IEEE double computation performed by JavaScript gives the same
verdict (the distances involved are far from, or exactly at, the threshold in
a regime where the double subtraction `1 - d/m` is exact).
-/

namespace PolarBear

set_option maxRecDepth 100000

/-- JS strings as lists of (UTF-16-ish) characters. -/
abbrev Str := List Char

/-- ASCII lowercasing of one character (`String.prototype.toLowerCase` on the
inputs exercised by the repository's tables, which are lowercase already). -/
def toLowerChar (c : Char) : Char :=
  if 'A' ≤ c ∧ c ≤ 'Z' then Char.ofNat (c.toNat + 32) else c

/-- `haystack.includes(needle)` (JS substring containment). -/
def strContains (haystack needle : Str) : Bool :=
  decide (needle <:+: haystack)

/-- JS word character (regex `\w`, i.e. `[A-Za-z0-9_]`), used by `\b`. -/
def isWordChar (c : Char) : Bool :=
  ('a' ≤ c && c ≤ 'z') || ('A' ≤ c && c ≤ 'Z') || ('0' ≤ c && c ≤ '9') || c = '_'

/-- Scanner for `processed.replace(new RegExp('\\b' + typo + '\\b', 'g'), corr)`:
left-to-right, non-overlapping, the replacement is not rescanned.  `prev` is
the character of the original string just before the current position (`none`
at the start); a match requires a non-word (or absent) character on both
sides. -/
def replaceWordGo (t0 : Char) (ts : Str) (corr : Str) :
    Nat → Option Char → Str → Str
  | 0, _, s => s
  | _ + 1, _, [] => []
  | fuel + 1, prev, c :: rest =>
    if ((t0 :: ts).isPrefixOf (c :: rest)
        && (match prev with | none => true | some p => !isWordChar p)
        && (match rest.drop ts.length with | [] => true | d :: _ => !isWordChar d))
    then corr ++ replaceWordGo t0 ts corr fuel ((t0 :: ts).getLast?) (rest.drop ts.length)
    else c :: replaceWordGo t0 ts corr fuel (some c) rest

/-- Whole-word global replacement of `typo` by `corr` (JS `\btypo\b` with the
`g` flag).  The scan consumes at least one character per step, so fuelling it
with the string's length never cuts it short. -/
def replaceWordAll (typo corr : Str) (s : Str) : Str :=
  match typo with
  | [] => s
  | t :: ts => replaceWordGo t ts corr s.length none s

/-- The `corrections` table of `preprocessMessage` (js/ai-service.js), in
declaration order.  JS object literals enumerate string keys in insertion
order, which is the order `for (const [typo, correction] of Object.entries(..))`
applies them in. -/
def corrections : List (Str × Str) := [
  ("wat".data, "what".data),
  ("wht".data, "what".data),
  ("whts".data, "whats".data),
  ("u".data, "you".data),
  ("ur".data, "your".data),
  ("r".data, "are".data),
  ("n".data, "and".data),
  ("thnks".data, "thanks".data),
  ("thx".data, "thanks".data),
  ("pls".data, "please".data),
  ("plz".data, "please".data),
  ("frm".data, "from".data),
  ("liv".data, "live".data),
  ("livng".data, "living".data),
  ("eet".data, "eat".data),
  ("eeting".data, "eating".data),
  ("hnt".data, "hunt".data),
  ("hnting".data, "hunting".data),
  ("skil".data, "skill".data),
  ("skils".data, "skills".data),
  ("problm".data, "problem".data),
  ("problms".data, "problems".data),
  ("chalenge".data, "challenge".data),
  ("chalenges".data, "challenges".data),
  ("difcult".data, "difficult".data),
  ("mesage".data, "message".data),
  ("mesages".data, "messages".data),
  ("undrstand".data, "understand".data),
  ("undrstanding".data, "understanding".data),
  ("capabilites".data, "capabilities".data),
  ("abilty".data, "ability".data),
  ("abilties".data, "abilities".data),
  ("territor".data, "territory".data),
  ("territores".data, "territories".data),
  ("locat".data, "locate".data),
  ("locaton".data, "location".data),
  ("locatons".data, "locations".data),
  ("hom".data, "home".data),
  ("homes".data, "homes".data),
  ("plac".data, "place".data),
  ("places".data, "places".data),
  ("nam".data, "name".data),
  ("nams".data, "names".data),
  ("nime".data, "name".data),
  ("nimes".data, "names".data),
  ("ho".data, "who".data),
  ("cal".data, "call".data),
  ("caling".data, "calling".data),
  ("identif".data, "identify".data),
  ("identifing".data, "identifying".data),
  ("favort".data, "favorite".data),
  ("favortes".data, "favorites".data),
  ("foood".data, "food".data),
  ("meel".data, "meal".data),
  ("meels".data, "meals".data),
  ("seel".data, "seal".data),
  ("seels".data, "seals".data),
  ("prey".data, "prey".data),
  ("preys".data, "preys".data),
  ("consume".data, "consume".data),
  ("consuming".data, "consuming".data),
  ("specil".data, "special".data),
  ("specials".data, "specials".data),
  ("hel".data, "help".data),
  ("helping".data, "helping".data),
  ("worr".data, "worry".data),
  ("worring".data, "worrying".data),
  ("concer".data, "concern".data),
  ("concerning".data, "concerning".data),
  ("issu".data, "issue".data),
  ("issues".data, "issues".data),
  ("troubl".data, "trouble".data),
  ("troubles".data, "troubles".data),
  ("hardst".data, "hardest".data),
  ("struggl".data, "struggle".data),
  ("struggling".data, "struggling".data),
  ("wan".data, "want".data),
  ("wanting".data, "wanting".data),
  ("shar".data, "share".data),
  ("sharing".data, "sharing".data),
  ("hop".data, "hope".data),
  ("hoping".data, "hoping".data),
  ("drem".data, "dream".data),
  ("dreaming".data, "dreaming".data),
  ("tomorow".data, "tomorrow".data),
  ("comng".data, "coming".data),
  ("ahed".data, "ahead".data),
  ("visin".data, "vision".data),
  ("visions".data, "visions".data)]

/-- `preprocessMessage` (js/ai-service.js lines 544-646): lowercase, then apply
every whole-word typo correction in table order. -/
def preprocessMessage (message : Str) : Str :=
  corrections.foldl (fun acc tc => replaceWordAll tc.1 tc.2 acc)
    (message.map toLowerChar)

/-! ## Topic classifier (js/ai-service.js, `detectTopic`) -/

/-- The closed set of topic labels of `detectTopic`'s keyword table, in the
object-literal declaration order that `Object.entries` enumerates. -/
inductive Topic
  | greeting | name | location | food | skills | problems | message
  | future | math | cooking | weather | technology | general
deriving DecidableEq, Repr

def greetingKeywords : List Str :=
  ["hello".data, "hi".data, "hey".data, "hola".data, "que tal".data,
   "como estas".data, "how are you".data, "whats up".data, "sup".data,
   "good morning".data, "good afternoon".data, "good evening".data,
   "buenos dias".data, "buenas tardes".data, "buenas noches".data,
   "hii".data, "hiii".data, "heyy".data, "heyyy".data, "holaa".data,
   "holaaa".data, "hey there".data, "hi there".data, "hello there".data]

def nameKeywords : List Str :=
  ["your name".data, "what are you".data, "who are you".data,
   "introduce yourself".data, "name".data, "who".data, "call".data,
   "identify".data, "nam".data, "ho".data, "cal".data, "identif".data,
   "what is your name".data, "whats your name".data, "whats ur name".data,
   "what is ur name".data, "tell me your name".data, "who are u".data,
   "what are u".data]

def locationKeywords : List Str :=
  ["where do you".data, "where are you".data, "where do you live".data,
   "where do you spend".data, "where in the arctic".data, "where".data,
   "live".data, "home".data, "place".data, "location".data,
   "spend time".data, "from".data, "located".data, "territory".data,
   "wer".data, "liv".data, "hom".data, "plac".data, "locat".data,
   "territor".data]

def foodKeywords : List Str :=
  ["favorite food".data, "what do you eat".data, "what do you hunt".data,
   "what do you like to eat".data, "food".data, "eat".data, "hunt".data,
   "hunting".data, "meal".data, "diet".data, "seal".data, "prey".data,
   "consume".data, "favort".data, "foood".data, "eet".data, "hnt".data,
   "huntng".data, "meel".data, "diet".data, "seel".data, "prey".data,
   "consume".data]

def skillsKeywords : List Str :=
  ["special skills".data, "how do you survive".data, "what skills".data,
   "survival skills".data, "skill".data, "survive".data, "cold".data,
   "ability".data, "how".data, "can".data, "survival".data, "special".data,
   "help".data, "capabilities".data, "specil".data, "skils".data,
   "survive".data, "abilty".data, "hel".data, "capabilites".data]

def problemsKeywords : List Str :=
  ["biggest problem".data, "what problems".data, "what challenges".data,
   "problem".data, "challenge".data, "difficult".data, "worry".data,
   "concern".data, "issue".data, "trouble".data, "biggest".data,
   "hardest".data, "struggle".data, "problm".data, "chalenge".data,
   "difcult".data, "worr".data, "concer".data, "issu".data, "troubl".data,
   "hardst".data, "struggl".data]

def messageKeywords : List Str :=
  ["one thing you want".data, "what do you want humans".data,
   "what should humans know".data, "message to humans".data, "know".data,
   "tell".data, "message".data, "human".data, "want".data,
   "understand".data, "say".data, "humans".data, "share".data,
   "mesage".data, "humans".data, "wan".data, "understan".data, "shar".data]

def futureKeywords : List Str :=
  ["what do you hope".data, "what do you dream".data, "future arctic".data,
   "future".data, "hope".data, "dream".data, "wish".data, "tomorrow".data,
   "coming".data, "ahead".data, "looks like".data, "will be".data,
   "vision".data, "hop".data, "drem".data, "wish".data, "tomorow".data,
   "comng".data, "ahed".data, "visin".data]

def mathKeywords : List Str :=
  ["math".data, "mathematics".data, "calculate".data, "calculation".data,
   "add".data, "subtract".data, "multiply".data, "divide".data, "plus".data,
   "minus".data, "times".data, "equals".data, "number".data, "numbers".data,
   "count".data, "counting".data, "sum".data, "total".data, "maths".data,
   "calcular".data, "sumar".data, "restar".data, "multiplicar".data,
   "dividir".data, "mas".data, "menos".data, "por".data, "igual".data,
   "numero".data, "numeros".data, "contar".data, "suma".data, "total".data]

def cookingKeywords : List Str :=
  ["cook".data, "cooking".data, "recipe".data, "food".data,
   "ingredients".data, "kitchen".data, "bake".data, "fry".data, "boil".data,
   "cocinar".data, "receta".data, "ingredientes".data, "cocina".data,
   "hornear".data, "freir".data, "hervir".data, "cocina".data]

def weatherKeywords : List Str :=
  ["weather".data, "climate".data, "temperature".data, "rain".data,
   "snow".data, "sunny".data, "cloudy".data, "windy".data, "clima".data,
   "temperatura".data, "lluvia".data, "nieve".data, "soleado".data,
   "nublado".data, "ventoso".data]

def technologyKeywords : List Str :=
  ["computer".data, "phone".data, "internet".data, "software".data,
   "app".data, "programming".data, "code".data, "computadora".data,
   "telefono".data, "programacion".data, "codigo".data, "aplicacion".data]

def generalKeywords : List Str :=
  ["what is".data, "how do".data, "why".data, "when".data, "where".data,
   "que es".data, "como".data, "por que".data, "cuando".data, "donde".data,
   "explain".data, "tell me about".data, "explica".data,
   "cuentame sobre".data]

/-- The `topicKeywords` table of `detectTopic`, in declaration order. -/
def topicKeywords : List (Topic × List Str) :=
  [(Topic.greeting, greetingKeywords),
   (Topic.name, nameKeywords),
   (Topic.location, locationKeywords),
   (Topic.food, foodKeywords),
   (Topic.skills, skillsKeywords),
   (Topic.problems, problemsKeywords),
   (Topic.message, messageKeywords),
   (Topic.future, futureKeywords),
   (Topic.math, mathKeywords),
   (Topic.cooking, cookingKeywords),
   (Topic.weather, weatherKeywords),
   (Topic.technology, technologyKeywords),
   (Topic.general, generalKeywords)]

/-- Stable insertion into a list sorted by descending length (the stable JS
`keywords.sort((a, b) => b.length - a.length)`). -/
def insertByLen (x : Str) : List Str → List Str
  | [] => [x]
  | y :: ys => if x.length < y.length then y :: insertByLen x ys else x :: y :: ys

/-- Stable sort by descending string length. -/
def sortByLenDesc (l : List Str) : List Str := l.foldr insertByLen []

/-- The Levenshtein DP of `levenshteinDistance` (js/ai-service.js lines
392-418): given the previous matrix row starting at column `j - 1` (so its
head is the diagonal cell and its second element the cell above) and the value
`left` of the current row's previous column, produce the current row's cells
for the remaining characters of `str1`. -/
def levRowAux (c2 : Char) : Str → Nat → List Nat → List Nat
  | [], _, _ => []
  | a :: s1rest, left, diag :: up :: prevRest =>
    let cell := if a = c2 then diag else Nat.min (Nat.min (diag + 1) (left + 1)) (up + 1)
    cell :: levRowAux c2 s1rest cell (up :: prevRest)
  | _ :: _, _, _ => []

/-- Iterate the DP over the characters of `str2`; `row` is the full previous
matrix row and `i` the current row index (whose column 0 entry is `i`). -/
def levLoop (s1 : Str) : Str → List Nat → Nat → List Nat
  | [], row, _ => row
  | c2 :: s2rest, row, i => levLoop s1 s2rest (i :: levRowAux c2 s1 i row) (i + 1)

/-- `levenshteinDistance(str1, str2)` (js/ai-service.js lines 392-418). -/
def levenshteinDistance (s1 s2 : Str) : Nat :=
  ((levLoop s1 s2 (List.range (s1.length + 1)) 1).getLast?).getD 0

/-- `fuzzyMatch(str1, str2)` with the default threshold 0.6 (js/ai-service.js
lines 382-387).  The JS float test `1 - distance/maxLength >= 0.6` is the
rational test `5 * distance <= 2 * maxLength`; when both strings are empty JS
compares `NaN >= 0.6`, which is false. -/
def fuzzyMatch (str1 str2 : Str) : Bool :=
  let distance := levenshteinDistance (str1.map toLowerChar) (str2.map toLowerChar)
  let maxLength := Nat.max str1.length str2.length
  if maxLength = 0 then false else decide (5 * distance ≤ 2 * maxLength)

/-- First topic of the table whose keyword list passes `check` (the shared
shape of the exact and fuzzy passes of `detectTopic`). -/
def firstTopic (check : List Str → Bool) : List (Topic × List Str) → Option Topic
  | [] => none
  | (t, kws) :: rest => if check kws then some t else firstTopic check rest

/-- Exact pass per-topic test: some keyword (iterated longest-first, which
does not affect whether a match exists) is a substring of the input. -/
def exactCheck (input : Str) (kws : List Str) : Bool :=
  (sortByLenDesc kws).any (fun kw => strContains input kw)

/-- Fuzzy pass per-topic test: some keyword fuzzy-matches the input.  (By the
time the fuzzy pass runs, the exact pass has already sorted every keyword
array in place, so the fuzzy pass also iterates the sorted arrays.) -/
def fuzzyCheck (input : Str) (kws : List Str) : Bool :=
  (sortByLenDesc kws).any (fun kw => fuzzyMatch input kw)

/-- `detectTopic(input)` (js/ai-service.js lines 335-377): exact substring
pass over the topics in declaration order, then the hard-coded
"what is your"-family special case mapping to `name`, then the fuzzy pass. -/
def detectTopic (input : Str) : Option Topic :=
  match firstTopic (exactCheck input) topicKeywords with
  | some t => some t
  | none =>
    if strContains input "what is your".data || strContains input "whats your".data
       || strContains input "what is ur".data || strContains input "whats ur".data
    then some Topic.name
    else firstTopic (fuzzyCheck input) topicKeywords

/-! ## Blueprint generator (js/blueprint-generator.js) -/

/-- The curated 7-section subset, in the declaration order of both the
`sections` object of `buildSections` and the `keywords` object. -/
inductive SectionKey
  | identity | habitat | diet | skills | challenges | message | future
deriving DecidableEq, Repr

/-- `Object.keys` order of the section maps. -/
def sectionKeys : List SectionKey :=
  [SectionKey.identity, SectionKey.habitat, SectionKey.diet,
   SectionKey.skills, SectionKey.challenges, SectionKey.message,
   SectionKey.future]

/-- The `keywords` table of the blueprint generator (lines 19-62). -/
def blueprintKeywords : SectionKey → List Str
  | SectionKey.identity =>
    ["your name".data, "name".data, "who are you".data, "who are u".data,
     "who are".data, "introduce".data, "identity".data,
     "cómo te llamas".data, "como te llamas".data, "nombre".data,
     "quién eres".data, "quien eres".data, "te llamas".data]
  | SectionKey.habitat =>
    ["where do you live".data, "where are you".data,
     "where in the arctic".data, "where".data, "live".data, "home".data,
     "location".data, "habitat".data, "territory".data, "sea ice".data,
     "ice floes".data, "north".data, "arctic".data, "dónde vives".data,
     "donde vives".data, "vives".data, "hogar".data, "lugar".data,
     "hábitat".data, "habitat".data, "territorio".data, "ártico".data,
     "artico".data, "hielo".data]
  | SectionKey.diet =>
    ["what do you eat".data, "eat".data, "food".data, "diet".data,
     "meal".data, "hunt".data, "hunting".data, "prey".data, "seal".data,
     "seals".data, "blubber".data, "fish".data, "qué comes".data,
     "que comes".data, "comes".data, "comer".data, "comida".data,
     "dieta".data, "cazar".data, "caza".data, "presa".data, "presas".data,
     "foca".data, "focas".data]
  | SectionKey.skills =>
    ["skills".data, "special skills".data, "survive".data, "survival".data,
     "adapt".data, "adaptation".data, "adaptations".data, "ability".data,
     "abilities".data, "fur".data, "swim".data, "paws".data, "claws".data,
     "smell".data, "run".data, "fast".data, "strong".data,
     "habilidades".data, "especiales".data, "sobrevives".data,
     "sobrevivir".data, "adaptaciones".data, "adaptación".data,
     "adaptacion".data, "capacidad".data, "capacidades".data,
     "pelaje".data, "nadar".data, "patas".data, "garras".data,
     "olfato".data, "correr".data]
  | SectionKey.challenges =>
    ["biggest problem".data, "what problems".data, "what challenges".data,
     "problem".data, "problems".data, "challenge".data, "challenges".data,
     "difficult".data, "concern".data, "issue".data, "trouble".data,
     "hardest".data, "struggle".data, "melting".data,
     "climate change".data, "warming".data, "ice is".data, "sea ice".data,
     "mayor problema".data, "problema".data, "problemas".data,
     "desafío".data, "desafios".data, "desafío".data, "desafíos".data,
     "dificultad".data, "preocupación".data, "preocupaciones".data,
     "calentamiento".data, "cambio climático".data,
     "cambio climatico".data, "deshielo".data, "hielo".data]
  | SectionKey.message =>
    ["message to humans".data, "what should humans know".data,
     "what do you want humans".data, "humans should".data,
     "tell humans".data, "message".data, "humans".data,
     "people should".data, "mensaje a los humanos".data,
     "mensaje para los humanos".data, "humanos deben".data,
     "qué quieres que los humanos".data,
     "que quieres que los humanos".data, "mensaje".data, "humanos".data]
  | SectionKey.future =>
    ["what do you hope".data, "hope".data, "dream".data, "future".data,
     "vision".data, "wish".data, "tomorrow".data, "ahead".data,
     "futuro".data, "esperas".data, "esperanza".data, "sueñas".data,
     "sueños".data, "sueños".data, "sueño".data, "deseas".data,
     "deseo".data, "mañana".data]

/-- `detectSectionForText(textLower)` (lines 104-111): first section in
declaration order one of whose terms occurs in the text, terms tried in
list order. -/
def detectSectionForText (textLower : Str) : Option SectionKey :=
  sectionKeys.find? (fun k =>
    (blueprintKeywords k).any (fun term => strContains textLower term))

/-! ### Sentence segmentation (`splitIntoSentences`, lines 96-102) -/

/-- JS regex `\s` on the ASCII range. -/
def isWs (c : Char) : Bool :=
  c = ' ' || c = '\t' || c = '\n' || c = '\r' ||
  c = Char.ofNat 11 || c = Char.ofNat 12

/-- `text.replace(/\s+/g, ' ')`: collapse each whitespace run to one space;
`prevWs` records whether the previous character was whitespace (i.e. the run
has already emitted its space). -/
def collapseWsGo (prevWs : Bool) : Str → Str
  | [] => []
  | c :: rest =>
    if isWs c then
      if prevWs then collapseWsGo true rest
      else ' ' :: collapseWsGo true rest
    else c :: collapseWsGo false rest

def collapseWs (s : Str) : Str := collapseWsGo false s

/-- `s.trim()`: strip leading and trailing whitespace. -/
def trimWs (s : Str) : Str :=
  ((s.dropWhile isWs).reverse.dropWhile isWs).reverse

/-- Sentence terminator characters. -/
def isTerm (c : Char) : Bool := c = '.' || c = '!' || c = '?'

/-- The chunks produced by `normalized.match(/[^.!?]+[.!?]+|[^.!?]+$/g)`:
`run` is the pending run of non-terminators and `term` the pending run of
terminators following it (nonempty only when `run` is).  Terminator characters
with no preceding run match neither alternative and are skipped. -/
def chunksGo (run term : Str) : Str → List Str
  | [] => if run.isEmpty then [] else [run ++ term]
  | c :: rest =>
    if isTerm c then
      if run.isEmpty then chunksGo [] [] rest
      else chunksGo run (term ++ [c]) rest
    else
      if term.isEmpty then chunksGo (run ++ [c]) [] rest
      else (run ++ term) :: chunksGo [c] [] rest

/-- All matches of `/[^.!?]+[.!?]+|[^.!?]+$/g`, empty exactly when the string
contains no non-terminator character (the regex returns `null` there). -/
def sentenceChunks (cs : Str) : List Str := chunksGo [] [] cs

/-- `splitIntoSentences(text)` (lines 96-102). -/
def splitIntoSentences (text : Str) : List Str :=
  let normalized := trimWs (collapseWs text)
  if normalized.isEmpty then []
  else
    match sentenceChunks normalized with
    | [] => [normalized]
    | ms@(_ :: _) => (ms.map trimWs).filter (fun s => !s.isEmpty)

/-! ### Section assembly (`buildSections`, lines 113-143) -/

/-- The section map: a JS object with exactly the 7 curated keys, each an
insertion-ordered deduplicated list (a JS `Set` rendered by `Array.from`). -/
structure Sections where
  identity : List Str
  habitat : List Str
  diet : List Str
  skills : List Str
  challenges : List Str
  message : List Str
  future : List Str
deriving DecidableEq, Repr

def Sections.get (s : Sections) : SectionKey → List Str
  | SectionKey.identity => s.identity
  | SectionKey.habitat => s.habitat
  | SectionKey.diet => s.diet
  | SectionKey.skills => s.skills
  | SectionKey.challenges => s.challenges
  | SectionKey.message => s.message
  | SectionKey.future => s.future

def Sections.set (s : Sections) : SectionKey → List Str → Sections
  | SectionKey.identity, v => { s with identity := v }
  | SectionKey.habitat, v => { s with habitat := v }
  | SectionKey.diet, v => { s with diet := v }
  | SectionKey.skills, v => { s with skills := v }
  | SectionKey.challenges, v => { s with challenges := v }
  | SectionKey.message, v => { s with message := v }
  | SectionKey.future, v => { s with future := v }

/-- Build a section map from a per-key function (mirrors object construction
over `Object.keys`). -/
def Sections.ofFun (f : SectionKey → List Str) : Sections :=
  ⟨f SectionKey.identity, f SectionKey.habitat, f SectionKey.diet,
   f SectionKey.skills, f SectionKey.challenges, f SectionKey.message,
   f SectionKey.future⟩

/-- The initial all-empty section map of `buildSections`. -/
def Sections.empty : Sections := ⟨[], [], [], [], [], [], []⟩

/-- The section map as the key-ordered association list that rendering
consumes. -/
def Sections.toList (s : Sections) : List (SectionKey × List Str) :=
  sectionKeys.map (fun k => (k, s.get k))

/-- `if (set.size < maxItemsPerSection) set.add(sentence)`: append a sentence
to a section unless it is already present or the section already holds
`maxItems` items. -/
def addToSection (maxItems : Nat) (items : List Str) (sentence : Str) : List Str :=
  if items.length < maxItems then
    if sentence ∈ items then items else items ++ [sentence]
  else items

/-- One sentence of an assistant message: classify its lowercased text and,
when a curated section matches, add the sentence to that section. -/
def processSentence (s : Sections) (sentence : Str) : Sections :=
  match detectSectionForText (sentence.map toLowerChar) with
  | some k => s.set k (addToSection 3 (s.get k) sentence)
  | none => s

/-- All sentences of one assistant message, in order. -/
def processMessage (s : Sections) (content : Str) : Sections :=
  (splitIntoSentences content).foldl processSentence s

/-- A conversation message (`{ role, content }`); entries of the history array
may also be absent, which `buildSections`'s `m && ...` filter guards. -/
structure Msg where
  role : Str
  content : Str
deriving DecidableEq, Repr

/-- `m.role === 'assistant' || m.role === 'bot'`. -/
def isAssistantRole (m : Msg) : Bool :=
  decide (m.role = "assistant".data) || decide (m.role = "bot".data)

/-- `messages.filter(m => m && (m.role === 'assistant' || m.role === 'bot'))`. -/
def assistantMessages (messages : List (Option Msg)) : List Msg :=
  messages.filterMap (fun om =>
    om.bind (fun m => if isAssistantRole m then some m else none))

/-- `buildSections(messages)` (lines 113-143). -/
def buildSections (messages : List (Option Msg)) : Sections :=
  (assistantMessages messages).foldl
    (fun s m => processMessage s m.content) Sections.empty

/-! ### Section localizer (`maybeTranslateSections`, lines 145-228)

The external translation capability (an HTTPS chat-completion call) is the
only effect; it is modelled as a function producing either an error — any
network failure, non-2xx status (`translation http error`), or `JSON.parse`
throw, all of which the JS reaches as a thrown exception — or the parsed
response object `out`, abstracted to its per-key content: `some items` for a
key whose value is an array (`Array.isArray(out[key])`, the items already
coerced to strings by `String(x)`), `none` for a missing or non-array key.
The cache key `JSON.stringify(sections) + '::' + lang` is modelled as the
pair `(sections, lang)`, since `JSON.stringify` is injective on these
fixed-key string-array maps. -/

/-- Per-key view of the parsed translation response. -/
abbrev TransOut := SectionKey → Option (List Str)

/-- The in-memory `translationCache` (`Map`, line 65): newest entry first so
lookup honours `Map.set` overwriting. -/
abbrev Cache := List ((Sections × Str) × Sections)

/-- `translationCache.has/get`. -/
def cacheLookup (cache : Cache) (k : Sections × Str) : Option Sections :=
  (cache.find? (fun e => decide (e.1 = k))).map (fun e => e.2)

/-- The relevant fields of `getAIConfig()` (lines 180-186). -/
structure AIConfig where
  apiKey : Str
  baseURL : Str
  modelName : Str
deriving DecidableEq, Repr

/-- The result-shaping tail of `translateViaOpenRouter` (lines 221-227) after
a successful call and parse: for each key of the input section map, take the
response's array for that key if it is an array, otherwise keep the original
items. -/
def translateViaOpenRouter (sections : Sections) (out : TransOut) : Sections :=
  Sections.ofFun (fun key =>
    match out key with
    | some arr => arr
    | none => sections.get key)

/-- `(targetLang || this.getCurrentLanguage()).toLowerCase()`. -/
def resolveLang (targetLang : Option Str) (currentLang : Str) : Str :=
  (match targetLang with
   | some t => if t.isEmpty then currentLang else t
   | none => currentLang).map toLowerChar

/-- `Object.values(sections).reduce((n, arr) => n + (arr ? arr.length : 0), 0)`. -/
def totalItemCount (s : Sections) : Nat :=
  (s.toList.map (fun kv => kv.2.length)).sum

/-- `maybeTranslateSections(sections, targetLang)` (lines 145-178), returning
the localized sections, the updated cache, and whether the external
translation capability was invoked.  The `catch` swallowing any capability
failure is the `Except.error` branch. -/
def maybeTranslateSections (cache : Cache) (cfg : Option AIConfig)
    (capability : Sections → Str → Except Unit TransOut)
    (sections : Option Sections) (targetLang : Option Str)
    (currentLang : Str) : Option Sections × Cache × Bool :=
  let lang := resolveLang targetLang currentLang
  match sections with
  | none => (none, cache, false)
  | some secs =>
    if totalItemCount secs = 0 then (some secs, cache, false)
    else
      match cacheLookup cache (secs, lang) with
      | some hit => (some hit, cache, false)
      | none =>
        if lang ≠ "en".data ∧ lang ≠ "es".data then (some secs, cache, false)
        else
          match cfg with
          | none => (some secs, cache, false)
          | some c =>
            if c.apiKey.isEmpty then (some secs, cache, false)
            else
              match capability secs lang with
              | Except.error _ => (some secs, cache, true)
              | Except.ok out =>
                let translated := translateViaOpenRouter secs out
                (some translated, ((secs, lang), translated) :: cache, true)

/-! ## Concrete fixtures used by witnesses and counterexamples -/

/-- A section map with one identity item and one diet item. -/
def demoSections : Sections :=
  ⟨["A.".data], [], ["B.".data], [], [], [], []⟩

/-- A parsed translation response that drops the `diet` key entirely and
returns a wrong-length (two-item) array for the one-item `identity` key. -/
def demoOut : TransOut := fun k =>
  match k with
  | SectionKey.identity => some ["X.".data, "Y.".data]
  | _ => none

/-- A well-translated response for `demoSections`. -/
def demoOkOut : TransOut := fun k =>
  match k with
  | SectionKey.identity => some ["X.".data]
  | SectionKey.diet => some ["Y.".data]
  | _ => none

/-- An AI configuration with a (non-empty) API key. -/
def demoConfig : AIConfig :=
  ⟨"key".data, "https://openrouter.ai/api/v1".data, "deepseek/deepseek-chat".data⟩

/-- A translation capability that always throws. -/
def errCapability : Sections → Str → Except Unit TransOut :=
  fun _ _ => Except.error ()

/-- A translation capability that always succeeds with `demoOkOut`. -/
def okCapability : Sections → Str → Except Unit TransOut :=
  fun _ _ => Except.ok demoOkOut

/-- A translation capability that always succeeds with `demoOut`. -/
def shapeCapability : Sections → Str → Except Unit TransOut :=
  fun _ _ => Except.ok demoOut

/-! ## Lemmas about the classifier's exact pass -/

theorem mem_insertByLen {a x : Str} {l : List Str} :
    a ∈ insertByLen x l ↔ a = x ∨ a ∈ l := by
  induction l with
  | nil => simp [insertByLen]
  | cons y ys ih =>
    unfold insertByLen
    split
    · simp only [List.mem_cons, ih]
      tauto
    · simp [List.mem_cons]

theorem mem_sortByLenDesc {a : Str} {l : List Str} :
    a ∈ sortByLenDesc l ↔ a ∈ l := by
  induction l with
  | nil => simp [sortByLenDesc]
  | cons y ys ih =>
    rw [show sortByLenDesc (y :: ys) = insertByLen y (sortByLenDesc ys) from rfl,
      mem_insertByLen, ih, List.mem_cons]

theorem exactCheck_of_contains {input kw : Str} {kws : List Str}
    (hmem : kw ∈ kws) (hc : strContains input kw = true) :
    exactCheck input kws = true := by
  unfold exactCheck
  rw [List.any_eq_true]
  exact ⟨kw, mem_sortByLenDesc.mpr hmem, hc⟩

theorem exactCheck_of_not_contains {input : Str} {kws : List Str}
    (h : ∀ kw ∈ kws, strContains input kw = false) :
    exactCheck input kws = false := by
  unfold exactCheck
  rw [List.any_eq_false]
  intro kw hkw
  rw [h kw (mem_sortByLenDesc.mp hkw)]
  simp

theorem firstTopic_of_first (check : List Str → Bool)
    (pre : List (Topic × List Str)) (T : Topic) (kws : List Str)
    (post : List (Topic × List Str))
    (hpre : ∀ p ∈ pre, check p.2 = false) (hT : check kws = true) :
    firstTopic check (pre ++ (T, kws) :: post) = some T := by
  induction pre with
  | nil => simp [firstTopic, hT]
  | cons p ps ih =>
    obtain ⟨t, kl⟩ := p
    have hp : check kl = false := hpre (t, kl) (List.mem_cons_self _ _)
    simp only [List.cons_append, firstTopic, hp, Bool.false_eq_true, if_false]
    exact ih (fun q hq => hpre q (List.mem_cons_of_mem _ hq))

/-- Claim C1 (amended): for a topic `T` with keyword list `kws` in the
`topicKeywords` table, and a keyword `k` of `T`, `detectTopic` applied to the
normalized keyword returns `T` provided (a) the normalized keyword still
contains some keyword of `T` and (b) no keyword of a topic listed earlier in
the table occurs in the normalized keyword.  Without condition (b) the claim
is false: keyword lists share strings across topics, and the first topic in
declaration order wins (see the counterexample). -/
theorem C1_exact_pass_first_match
    (pre post : List (Topic × List Str)) (T : Topic) (kws : List Str) (k : Str)
    (htable : topicKeywords = pre ++ (T, kws) :: post)
    (_hmem : k ∈ kws)
    (hkeep : ∃ kw ∈ kws, strContains (preprocessMessage k) kw = true)
    (hpre : ∀ p ∈ pre, ∀ kw ∈ p.2, strContains (preprocessMessage k) kw = false) :
    detectTopic (preprocessMessage k) = some T := by
  obtain ⟨kw, hkw, hc⟩ := hkeep
  unfold detectTopic
  rw [htable, firstTopic_of_first _ pre T kws post
    (fun p hp => exactCheck_of_not_contains (hpre p hp))
    (exactCheck_of_contains hkw hc)]

/-- Witness for C1's amended theorem: the keyword `"where"` of the `location`
topic classifies back to `location`; the two earlier topics (`greeting`,
`name`) have no keyword occurring in the normalized string. -/
theorem C1_exact_pass_witness :
    "where".data ∈ locationKeywords ∧
    detectTopic (preprocessMessage "where".data) = some Topic.location :=
  ⟨by decide,
    C1_exact_pass_first_match
      [(Topic.greeting, greetingKeywords), (Topic.name, nameKeywords)]
      [(Topic.food, foodKeywords), (Topic.skills, skillsKeywords),
       (Topic.problems, problemsKeywords), (Topic.message, messageKeywords),
       (Topic.future, futureKeywords), (Topic.math, mathKeywords),
       (Topic.cooking, cookingKeywords), (Topic.weather, weatherKeywords),
       (Topic.technology, technologyKeywords), (Topic.general, generalKeywords)]
      Topic.location locationKeywords "where".data
      rfl (by decide) ⟨"where".data, by decide, by decide⟩ (by decide)⟩

/-- Counterexample to claim C1 as stated: `"where"` is a keyword of the
`general` topic, yet classifying its normalization returns `location` (the
string is also a `location` keyword, and `location` precedes `general` in the
table), so `classify(normalize(k)) = T` fails for `T = general`,
`k = "where"`. -/
theorem C1_shared_keyword_counterexample :
    (Topic.general, generalKeywords) ∈ topicKeywords ∧
    "where".data ∈ generalKeywords ∧
    detectTopic (preprocessMessage "where".data) = some Topic.location ∧
    Topic.location ≠ Topic.general :=
  ⟨by decide, by decide, by decide, by decide⟩

/-! ## Lemmas about section assembly -/

theorem Sections.get_set (s : Sections) (k : SectionKey) (v : List Str)
    (k' : SectionKey) :
    (s.set k v).get k' = if k' = k then v else s.get k' := by
  cases k <;> cases k' <;> simp [Sections.set, Sections.get]

theorem processSentence_get (s : Sections) (x : Str) (k : SectionKey) :
    (processSentence s x).get k =
      if detectSectionForText (x.map toLowerChar) = some k
      then addToSection 3 (s.get k) x else s.get k := by
  unfold processSentence
  cases hd : detectSectionForText (x.map toLowerChar) with
  | none => simp
  | some k' =>
    rw [Sections.get_set]
    by_cases hk : k' = k
    · subst hk
      simp
    · simp [hk, Ne.symm hk]

theorem addToSection_length {items : List Str} {x : Str}
    (h : items.length ≤ 3) : (addToSection 3 items x).length ≤ 3 := by
  unfold addToSection
  split
  · split
    · exact h
    · rename_i hlt _
      simp only [List.length_append, List.length_singleton]
      omega
  · exact h

theorem addToSection_nodup {items : List Str} {x : Str}
    (h : items.Nodup) : (addToSection 3 items x).Nodup := by
  unfold addToSection
  split
  · split
    · exact h
    · rename_i hmem
      rw [List.nodup_append]
      refine ⟨h, List.nodup_singleton x, ?_⟩
      intro a ha hb
      rw [List.mem_singleton] at hb
      exact hmem (hb ▸ ha)
  · exact h

theorem addToSection_prefix (items : List Str) (x : Str) :
    items <+: addToSection 3 items x := by
  unfold addToSection
  split
  · split
    · exact List.prefix_refl _
    · exact List.prefix_append _ _
  · exact List.prefix_refl _

/-- The invariant every section map reachable by `buildSections` satisfies:
each section holds at most three pairwise-distinct items. -/
def SInv (s : Sections) : Prop :=
  ∀ k, ((s.get k).length ≤ 3) ∧ (s.get k).Nodup

theorem SInv.empty : SInv Sections.empty := by
  intro k
  cases k <;> simp [Sections.get, Sections.empty]

theorem sinv_processSentence {s : Sections} (h : SInv s) (x : Str) :
    SInv (processSentence s x) := by
  intro k
  rw [processSentence_get]
  split
  · exact ⟨addToSection_length (h k).1, addToSection_nodup (h k).2⟩
  · exact h k

theorem SInv.foldlSentences : ∀ (l : List Str) (s : Sections), SInv s →
    SInv (l.foldl processSentence s)
  | [], _, h => h
  | x :: xs, _, h => SInv.foldlSentences xs _ (sinv_processSentence h x)

theorem SInv.foldlMsgs : ∀ (l : List Msg) (s : Sections), SInv s →
    SInv (l.foldl (fun s m => processMessage s m.content) s)
  | [], _, h => h
  | m :: ms, s, h =>
    SInv.foldlMsgs ms _ (SInv.foldlSentences (splitIntoSentences m.content) s h)

theorem prefix_processSentence (s : Sections) (x : Str) (k : SectionKey) :
    s.get k <+: (processSentence s x).get k := by
  rw [processSentence_get]
  split
  · exact addToSection_prefix _ _
  · exact List.prefix_refl _

theorem prefix_foldlSentences : ∀ (l : List Str) (s : Sections) (k : SectionKey),
    s.get k <+: (l.foldl processSentence s).get k
  | [], _, _ => List.prefix_refl _
  | x :: xs, s, k =>
    (prefix_processSentence s x k).trans (prefix_foldlSentences xs _ k)

theorem prefix_foldlMsgs : ∀ (l : List Msg) (s : Sections) (k : SectionKey),
    s.get k <+: (l.foldl (fun s m => processMessage s m.content) s).get k
  | [], _, _ => List.prefix_refl _
  | m :: ms, s, k =>
    (prefix_foldlSentences (splitIntoSentences m.content) s k).trans
      (prefix_foldlMsgs ms _ k)

theorem assistantMessages_append (l l' : List (Option Msg)) :
    assistantMessages (l ++ l') = assistantMessages l ++ assistantMessages l' :=
  List.filterMap_append l l' _

/-- Claim C3 (confirmed): for every message sequence, the result of
`buildSections` carries exactly the 7 curated section keys in order (empty
sections included), no section holds more than 3 items, and no section
repeats an exact sentence string. -/
theorem C3_sections_invariants (messages : List (Option Msg)) :
    ((buildSections messages).toList.map Prod.fst = sectionKeys) ∧
    ∀ k, ((buildSections messages).get k).length ≤ 3 ∧
      ((buildSections messages).get k).Nodup :=
  ⟨rfl, SInv.foldlMsgs (assistantMessages messages) Sections.empty SInv.empty⟩

/-- Claim C5 (confirmed): extending the message history only extends the
extracted sections: every section of `buildSections ms` is a prefix of the
corresponding section of `buildSections (ms ++ more)`. -/
theorem C5_buildSections_monotone (ms more : List (Option Msg)) (k : SectionKey) :
    (buildSections ms).get k <+: (buildSections (ms ++ more)).get k := by
  unfold buildSections
  rw [assistantMessages_append, List.foldl_append]
  exact prefix_foldlMsgs (assistantMessages more) _ k

theorem assistantMessages_filter (msgs : List (Option Msg)) :
    assistantMessages
      (msgs.filter (fun om => (om.map isAssistantRole).getD false)) =
    assistantMessages msgs := by
  induction msgs with
  | nil => rfl
  | cons om rest ih =>
    cases om with
    | none =>
      simpa [assistantMessages, List.filter_cons, List.filterMap_cons,
        Option.map, Option.getD] using ih
    | some m =>
      cases h : isAssistantRole m <;>
        simpa [assistantMessages, List.filter_cons, List.filterMap_cons,
          Option.map, Option.getD, Option.bind, h] using ih

/-- Claim C10 (confirmed): only messages whose role is `assistant` or `bot`
contribute to extraction — deleting every other entry (other roles, absent
messages) from the history leaves `buildSections` unchanged — a `bot` message
does contribute, and the same content under role `user`, an arbitrary other
role, or an absent message contributes nothing. -/
theorem C10_role_filter :
    (∀ msgs : List (Option Msg),
      buildSections (msgs.filter (fun om => (om.map isAssistantRole).getD false))
        = buildSections msgs) ∧
    (buildSections [some ⟨"bot".data, "I hunt ringed seals.".data⟩]).get
        SectionKey.diet = ["I hunt ringed seals.".data] ∧
    buildSections [some ⟨"user".data, "I hunt ringed seals.".data⟩]
        = Sections.empty ∧
    buildSections [some ⟨"system".data, "I hunt ringed seals.".data⟩]
        = Sections.empty ∧
    buildSections [none] = Sections.empty := by
  refine ⟨?_, by decide, by decide, by decide, by decide⟩
  intro msgs
  unfold buildSections
  rw [assistantMessages_filter]

/-! ## Localizer theorems -/

theorem cacheLookup_insert_self (cache : Cache) (key : Sections × Str)
    (v : Sections) : cacheLookup ((key, v) :: cache) key = some v := by
  simp [cacheLookup, List.find?_cons]

/-- Claim C4 (confirmed): with a translation capability that always throws
(covering network failure, provider HTTP errors and malformed JSON, all of
which `translateViaOpenRouter` surfaces as a thrown exception), and no cached
translation for the request, `maybeTranslateSections` returns the input
sections unchanged and leaves the cache untouched; the embedding is a total
function, so no failure propagates to the caller. -/
theorem C4_localize_fail_open (cache : Cache) (cfg : Option AIConfig)
    (capability : Sections → Str → Except Unit TransOut)
    (secs : Sections) (targetLang : Option Str) (currentLang : Str)
    (hcap : ∀ s l, capability s l = Except.error ())
    (hmiss : cacheLookup cache (secs, resolveLang targetLang currentLang) = none)
    (hne : totalItemCount secs ≠ 0) :
    (maybeTranslateSections cache cfg capability (some secs) targetLang
        currentLang).1 = some secs ∧
    (maybeTranslateSections cache cfg capability (some secs) targetLang
        currentLang).2.1 = cache := by
  unfold maybeTranslateSections
  simp only [hmiss, if_neg hne, hcap]
  split
  · exact ⟨rfl, rfl⟩
  · cases cfg with
    | none => exact ⟨rfl, rfl⟩
    | some c =>
      simp only
      split
      · exact ⟨rfl, rfl⟩
      · exact ⟨rfl, rfl⟩

/-- Witness for C4: a concrete non-empty section map, empty cache and
always-throwing capability. -/
theorem C4_localize_fail_open_witness :
    totalItemCount demoSections ≠ 0 ∧
    (maybeTranslateSections [] (some demoConfig) errCapability
        (some demoSections) (some "es".data) "en".data).1 = some demoSections ∧
    (maybeTranslateSections [] (some demoConfig) errCapability
        (some demoSections) (some "es".data) "en".data).2.1 = [] :=
  ⟨by decide,
    C4_localize_fail_open [] (some demoConfig) errCapability demoSections
      (some "es".data) "en".data (fun _ _ => rfl) rfl (by decide)⟩

/-- Claim C6 (confirmed): when a first `maybeTranslateSections` call misses
the cache and the capability succeeds, the call invokes the capability,
caches the translated map, and a second call with the same sections and
language does not invoke the capability again and returns the cached
translated value. -/
theorem C6_translation_cached_once (cache : Cache) (c : AIConfig)
    (capability : Sections → Str → Except Unit TransOut)
    (secs : Sections) (targetLang : Option Str) (currentLang : Str)
    (out : TransOut)
    (hkey : c.apiKey.isEmpty = false)
    (hne : totalItemCount secs ≠ 0)
    (hlang : resolveLang targetLang currentLang = "en".data ∨
      resolveLang targetLang currentLang = "es".data)
    (hmiss : cacheLookup cache (secs, resolveLang targetLang currentLang) = none)
    (hcap : capability secs (resolveLang targetLang currentLang) =
      Except.ok out) :
    (maybeTranslateSections cache (some c) capability (some secs) targetLang
        currentLang) =
      (some (translateViaOpenRouter secs out),
        ((secs, resolveLang targetLang currentLang),
          translateViaOpenRouter secs out) :: cache, true) ∧
    (maybeTranslateSections
        ((((secs, resolveLang targetLang currentLang),
          translateViaOpenRouter secs out)) :: cache) (some c) capability
        (some secs) targetLang currentLang) =
      (some (translateViaOpenRouter secs out),
        ((secs, resolveLang targetLang currentLang),
          translateViaOpenRouter secs out) :: cache, false) := by
  have hlang2 : ¬(resolveLang targetLang currentLang ≠ "en".data ∧
      resolveLang targetLang currentLang ≠ "es".data) := by
    rcases hlang with h | h <;> simp [h]
  constructor
  · unfold maybeTranslateSections
    simp only [hmiss, if_neg hne, if_neg hlang2, hkey, Bool.false_eq_true,
      if_false, hcap]
  · unfold maybeTranslateSections
    simp only [if_neg hne, cacheLookup_insert_self]

/-- Witness for C6: concrete first and second calls against a mock capability
around `demoOkOut`. -/
theorem C6_translation_cached_once_witness :
    totalItemCount demoSections ≠ 0 ∧
    (maybeTranslateSections [] (some demoConfig) okCapability
        (some demoSections) (some "es".data) "en".data) =
      (some (translateViaOpenRouter demoSections demoOkOut),
        ((demoSections, resolveLang (some "es".data) "en".data),
          translateViaOpenRouter demoSections demoOkOut) :: [], true) ∧
    (maybeTranslateSections
        [((demoSections, resolveLang (some "es".data) "en".data),
          translateViaOpenRouter demoSections demoOkOut)] (some demoConfig)
        okCapability (some demoSections) (some "es".data) "en".data) =
      (some (translateViaOpenRouter demoSections demoOkOut),
        [((demoSections, resolveLang (some "es".data) "en".data),
          translateViaOpenRouter demoSections demoOkOut)], false) :=
  ⟨by decide,
    C6_translation_cached_once [] demoConfig okCapability demoSections
      (some "es".data) "en".data demoOkOut (by decide) (by decide)
      (Or.inr (by decide)) rfl rfl⟩

/-- Claim C2 (amended): a successful translation response is repaired
per-key, not discarded wholesale: each section key whose response value is an
array replaces that section (regardless of the array's length), and each
missing or non-array key falls back to that single section's original items,
so a response with a missing key yields a mix of translated and original
sections. -/
theorem C2_translation_per_key_fallback (cache : Cache) (c : AIConfig)
    (capability : Sections → Str → Except Unit TransOut)
    (secs : Sections) (targetLang : Option Str) (currentLang : Str)
    (out : TransOut)
    (hkey : c.apiKey.isEmpty = false)
    (hne : totalItemCount secs ≠ 0)
    (hlang : resolveLang targetLang currentLang = "en".data ∨
      resolveLang targetLang currentLang = "es".data)
    (hmiss : cacheLookup cache (secs, resolveLang targetLang currentLang) = none)
    (hcap : capability secs (resolveLang targetLang currentLang) =
      Except.ok out) :
    (maybeTranslateSections cache (some c) capability (some secs) targetLang
        currentLang).1 = some (translateViaOpenRouter secs out) ∧
    ∀ key, (translateViaOpenRouter secs out).get key =
      (out key).getD (secs.get key) := by
  have hlang2 : ¬(resolveLang targetLang currentLang ≠ "en".data ∧
      resolveLang targetLang currentLang ≠ "es".data) := by
    rcases hlang with h | h <;> simp [h]
  constructor
  · unfold maybeTranslateSections
    simp only [hmiss, if_neg hne, if_neg hlang2, hkey, Bool.false_eq_true,
      if_false, hcap]
  · intro key
    cases hk : out key <;>
      cases key <;>
        simp [translateViaOpenRouter, Sections.ofFun, Sections.get, hk]

/-- Witness for C2's amended theorem at the concrete fixtures. -/
theorem C2_translation_per_key_fallback_witness :
    totalItemCount demoSections ≠ 0 ∧
    (maybeTranslateSections [] (some demoConfig) shapeCapability
        (some demoSections) (some "es".data) "en".data).1 =
      some (translateViaOpenRouter demoSections demoOut) ∧
    ∀ key, (translateViaOpenRouter demoSections demoOut).get key =
      (demoOut key).getD (demoSections.get key) :=
  ⟨by decide,
    (C2_translation_per_key_fallback [] demoConfig shapeCapability demoSections
      (some "es".data) "en".data demoOut (by decide) (by decide)
      (Or.inr (by decide)) rfl rfl).1,
    (C2_translation_per_key_fallback [] demoConfig shapeCapability demoSections
      (some "es".data) "en".data demoOut (by decide) (by decide)
      (Or.inr (by decide)) rfl rfl).2⟩

/-- Counterexample to claim C2 as stated: for a response whose structured
output lacks the `diet` key and returns a two-item array for the one-item
`identity` section, the localizer does not fall back to the original sections
wholesale: it returns a map mixing the translated `identity` array (with the
wrong item count accepted) and the original `diet` items. -/
theorem C2_wholesale_discard_counterexample :
    (maybeTranslateSections [] (some demoConfig) shapeCapability
        (some demoSections) (some "es".data) "en".data).1 =
      some (Sections.mk ["X.".data, "Y.".data] [] ["B.".data] [] [] [] []) ∧
    Sections.mk ["X.".data, "Y.".data] [] ["B.".data] [] [] [] [] ≠
      demoSections :=
  ⟨by decide, by decide⟩

/-! ## Concrete classification and segmentation scenarios -/

/-- Claim C7 (confirmed): sentence segmentation splits at `.`, `!`, `?`,
keeping the delimiter with the preceding sentence, and a trailing fragment
with no terminal punctuation is its own sentence; in particular
`splitIntoSentences("A. B! C?")` is `["A.", "B!", "C?"]` and
`splitIntoSentences("A. B! C")` is `["A.", "B!", "C"]`. -/
theorem C7_sentence_segmentation :
    splitIntoSentences "A. B! C?".data = ["A.".data, "B!".data, "C?".data] ∧
    splitIntoSentences "A. B! C".data = ["A.".data, "B!".data, "C".data] :=
  ⟨by decide, by decide⟩

/-- Claim C8 (confirmed): `preprocessMessage("wat do u eet?")` normalizes to
`"what do you eat?"`, and `detectTopic` classifies that string as the
diet/food topic (the label `food` in the classifier's table). -/
theorem C8_scenario_wat_do_u_eet :
    preprocessMessage "wat do u eet?".data = "what do you eat?".data ∧
    detectTopic "what do you eat?".data = some Topic.food :=
  ⟨by decide, by decide⟩

/-- Counterexample to claim C9 as stated: `"skils"` is an exact keyword of
the `skills` topic (so the claim's premise that it is not an exact keyword is
false), and the exact substring pass alone already returns `skills` for it —
the classification does not happen in the fuzzy pass. -/
theorem C9_exact_keyword_counterexample :
    "skils".data ∈ skillsKeywords ∧
    firstTopic (exactCheck "skils".data) topicKeywords = some Topic.skills :=
  ⟨by decide, by decide⟩

/-- Claim C9 (amended): `fuzzyMatch("skils", "skill")` does succeed — the
Levenshtein distance is 1 against a maximum length of 5, similarity
`1 - 1/5 = 0.8 ≥ 0.6` — and `"skils"` is classified as the skills topic; but
`"skils"` is itself an exact keyword of `skills`, so the classification is
produced by the exact pass rather than the fuzzy pass. -/
theorem C9_skils_fuzzy_and_exact :
    levenshteinDistance "skils".data "skill".data = 1 ∧
    fuzzyMatch "skils".data "skill".data = true ∧
    detectTopic "skils".data = some Topic.skills ∧
    "skils".data ∈ skillsKeywords :=
  ⟨by decide, by decide, by decide, by decide⟩

end PolarBear
